import Mathlib

/-!
Shallow embedding of `src/sharpTransformer.ts`, a sharp-based image
transformer.  The external sharp engine is a black box: the pipeline is
modelled as the list of engine operations the code issues, in issue order,
and the engine itself as an abstract decoder/runner.  All definitions are
translated from the source file.
-/

namespace SharpTransformer

/-- The `MimeType` enum of the source. -/
inductive MimeType
  | SVG
  | JPEG
  | PNG
  | GIF
  | WEBP
  | BMP
  | TIFF
  | AVIF
deriving DecidableEq, Repr

/-- `ImageFit` union type of the source. -/
inductive ImageFit
  | contain
  | cover
  | fill
  | inside
  | outside
deriving DecidableEq, Repr

/-- `ImagePosition | string | number` from the source: a string (covers the
named anchors and arbitrary strings) or a number. -/
abbrev ImagePosition := Sum String Int

/-- `FlipDirection` union type of the source. -/
inductive FlipDirection
  | horizontal
  | vertical
  | both
deriving DecidableEq, Repr

/-- `CropOptions` interface of the source. -/
structure CropOptions where
  x : Int
  y : Int
  width : Int
  height : Int
deriving DecidableEq, Repr

/-- `Color`: a 4-tuple (r, g, b, alpha) of numbers. -/
abbrev Color := Int × Int × Int × Int

/-- `Required<TransformOptions>`: the resolved options the transform
receives — every field present (optional/null fields become `Option`). -/
structure TransformOptions where
  width : Option Int
  height : Option Int
  contentType : MimeType
  fit : ImageFit
  position : ImagePosition
  background : Color
  quality : Int
  compressionLevel : Int
  loop : Int
  delay : Int
  blurRadius : Option Int
  rotate : Option Int
  flip : Option FlipDirection
  crop : Option CropOptions
deriving DecidableEq, Repr

/-- The `fixedBackground` record `{r, g, b, alpha}` built at the top of
`transform` from the `background` tuple. -/
structure FixedBackground where
  r : Int
  g : Int
  b : Int
  alpha : Int
deriving DecidableEq, Repr

/-- `const fixedBackground = { r: background[0], g: background[1],
b: background[2], alpha: background[3] }`. -/
def fixedBackground (c : Color) : FixedBackground :=
  { r := c.1, g := c.2.1, b := c.2.2.1, alpha := c.2.2.2 }

/-- Options passed to `.jpeg({...})`. -/
structure JpegOptions where
  quality : Int
  progressive : Bool
  force : Bool
deriving DecidableEq, Repr

/-- Options passed to `.png({...})`. -/
structure PngOptions where
  progressive : Bool
  compressionLevel : Int
  force : Bool
deriving DecidableEq, Repr

/-- Options passed to `.gif({...})`. -/
structure GifOptions where
  loop : Int
  delay : Int
  force : Bool
deriving DecidableEq, Repr

/-- Options passed to `.webp({...})`. -/
structure WebpOptions where
  quality : Int
  force : Bool
deriving DecidableEq, Repr

/-- Options passed to `.tiff({...})`. -/
structure TiffOptions where
  quality : Int
  force : Bool
deriving DecidableEq, Repr

/-- Options passed to `.avif({...})`. -/
structure AvifOptions where
  quality : Int
  force : Bool
deriving DecidableEq, Repr

/-- The six encoder configurations issued in the final chained call. -/
structure EncodeConfig where
  jpeg : JpegOptions
  png : PngOptions
  gif : GifOptions
  webp : WebpOptions
  tiff : TiffOptions
  avif : AvifOptions
deriving DecidableEq, Repr

/-- The encoder configuration the transform builds: each `force` flag is
`outputContentType === X` for the respective format `X`. -/
def encodeConfig (o : TransformOptions) : EncodeConfig where
  jpeg :=
    { quality := o.quality
      progressive := true
      force := decide (o.contentType = MimeType.JPEG) }
  png :=
    { progressive := true
      compressionLevel := o.compressionLevel
      force := decide (o.contentType = MimeType.PNG) }
  gif :=
    { loop := o.loop
      delay := o.delay
      force := decide (o.contentType = MimeType.GIF) }
  webp :=
    { quality := o.quality
      force := decide (o.contentType = MimeType.WEBP) }
  tiff :=
    { quality := o.quality
      force := decide (o.contentType = MimeType.TIFF) }
  avif :=
    { quality := o.quality
      force := decide (o.contentType = MimeType.AVIF) }

/-- The six `force` flags of a configuration, in source call order. -/
def forceFlags (c : EncodeConfig) : List Bool :=
  [c.jpeg.force, c.png.force, c.gif.force, c.webp.force, c.tiff.force,
   c.avif.force]

/-- One engine operation issued on the working sharp image, with its
arguments as the source passes them. -/
inductive Op
  | ensureAlpha (alpha : Int)
  | extract (left top width height : Int)
  | resize (width height : Option Int) (fit : ImageFit)
      (position : ImagePosition) (background : FixedBackground)
  | flop
  | flip
  | rotate (angle : Int) (background : FixedBackground)
  | blur (radius : Int)
  | encode (cfg : EncodeConfig)
deriving DecidableEq, Repr

/-- `image.ensureAlpha(1)` — issued unconditionally. -/
def alphaOps : List Op := [Op.ensureAlpha 1]

/-- `if (crop) image.extract({left: crop.x, top: crop.y, width: crop.width,
height: crop.height})`. -/
def cropOps (o : TransformOptions) : List Op :=
  match o.crop with
  | some c => [Op.extract c.x c.y c.width c.height]
  | none => []

/-- `if (width != null || height != null) image.resize(width, height,
{fit, position, background: fixedBackground})`. -/
def resizeOps (o : TransformOptions) : List Op :=
  if o.width ≠ none ∨ o.height ≠ none then
    [Op.resize o.width o.height o.fit o.position
      (fixedBackground o.background)]
  else []

/-- `if (flip) { if (flip === "horizontal" || flip === "both") image.flop();
if (flip === "vertical" || flip === "both") image.flip(); }`. -/
def flipOps (o : TransformOptions) : List Op :=
  match o.flip with
  | none => []
  | some d =>
      (if d = FlipDirection.horizontal ∨ d = FlipDirection.both then
        [Op.flop] else []) ++
      (if d = FlipDirection.vertical ∨ d = FlipDirection.both then
        [Op.flip] else [])

/-- `if (rotate && rotate != 0) image.rotate(rotate,
{background: fixedBackground})` — `rotate` of `null` or `0` is falsy, and
the second conjunct repeats the non-zero test, so the guard is exactly
"present and non-zero". -/
def rotateOps (o : TransformOptions) : List Op :=
  match o.rotate with
  | none => []
  | some r =>
      if r ≠ 0 then [Op.rotate r (fixedBackground o.background)]
      else []

/-- `if (blurRadius && blurRadius > 0) image.blur(blurRadius)` — the value
must be truthy (non-null, non-zero) and strictly positive. -/
def blurOps (o : TransformOptions) : List Op :=
  match o.blurRadius with
  | none => []
  | some b => if b ≠ 0 ∧ 0 < b then [Op.blur b] else []

/-- The final chained encode call (`.jpeg(...).png(...)...toBuffer()`). -/
def encodeOps (o : TransformOptions) : List Op :=
  [Op.encode (encodeConfig o)]

/-- The full operation sequence `transform` issues on the working image,
in source order. -/
def transformTrace (o : TransformOptions) : List Op :=
  alphaOps ++ cropOps o ++ resizeOps o ++ flipOps o ++ rotateOps o ++
    blurOps o ++ encodeOps o

/-- Failure kinds of the black-box sharp engine. -/
inductive EngineFailure
  | outOfBounds
  | other
deriving DecidableEq, Repr

/-- Abstract model of the sharp engine: whether it can decode given bytes
as one of its supported encodings, and the deterministic result of running
an operation sequence on decoded bytes. -/
structure Engine where
  decodesOk : List Nat → Bool
  run : List Nat → List Op → Except EngineFailure (List Nat)

/-- Error kinds of the transformer contract. -/
inductive TransformError
  | DecodeError
  | OutOfBoundsError
  | UnsupportedOutputError
  | EngineError
deriving DecidableEq, Repr

/-- The `input` argument of `transform`: `{url, data, contentType}`. -/
structure TransformInput where
  url : String
  data : List Nat
  contentType : MimeType
deriving DecidableEq, Repr

/-- The `transform` operation: decode `input.data` with the engine (a
failure there is the decode error), run the issued operation sequence, and
surface engine failures.  The source destructures only `{ data }` from the
input. -/
def transform (E : Engine) (input : TransformInput)
    (output : TransformOptions) : Except TransformError (List Nat) :=
  if E.decodesOk input.data then
    match E.run input.data (transformTrace output) with
    | Except.ok bytes => Except.ok bytes
    | Except.error EngineFailure.outOfBounds =>
        Except.error TransformError.OutOfBoundsError
    | Except.error EngineFailure.other =>
        Except.error TransformError.EngineError
  else
    Except.error TransformError.DecodeError

/-- `export const supportedInputs = new Set([...])`. -/
def supportedInputs : List MimeType :=
  [MimeType.JPEG, MimeType.PNG, MimeType.GIF, MimeType.WEBP, MimeType.TIFF,
   MimeType.AVIF]

/-- `export const supportedOutputs = new Set([...])`. -/
def supportedOutputs : List MimeType :=
  [MimeType.JPEG, MimeType.PNG, MimeType.GIF, MimeType.WEBP, MimeType.TIFF,
   MimeType.AVIF]

/-- The `Transformer` record type. -/
structure Transformer where
  name : String
  supportedInputs : List MimeType
  supportedOutputs : List MimeType
  fallbackOutput : MimeType
  transform : Engine → TransformInput → TransformOptions →
    Except TransformError (List Nat)

/-- `export const sharpTransformer: Transformer = {...}`. -/
def sharpTransformer : Transformer where
  name := "sharpTransformer"
  supportedInputs := supportedInputs
  supportedOutputs := supportedOutputs
  fallbackOutput := MimeType.PNG
  transform := transform

/-- The pipeline stage an operation belongs to, numbered in the fixed
source order. -/
def stage : Op → Nat
  | Op.ensureAlpha _ => 0
  | Op.extract _ _ _ _ => 1
  | Op.resize _ _ _ _ _ => 2
  | Op.flop => 3
  | Op.flip => 4
  | Op.rotate _ _ => 5
  | Op.blur _ => 6
  | Op.encode _ => 7

/-- Strict stage order between operations. -/
def StageLT (a b : Op) : Prop := stage a < stage b

/-- Concrete fully-resolved option set used in witnesses. -/
def baseOptions : TransformOptions where
  width := none
  height := none
  contentType := MimeType.PNG
  fit := ImageFit.contain
  position := Sum.inl "center"
  background := (0, 0, 0, 0)
  quality := 80
  compressionLevel := 9
  loop := 0
  delay := 100
  blurRadius := none
  rotate := none
  flip := none
  crop := none

/-- An engine that decodes everything and echoes the input bytes. -/
def okEngine : Engine where
  decodesOk := fun _ => true
  run := fun d _ => Except.ok d

/-- An engine that rejects every input as undecodable. -/
def failEngine : Engine where
  decodesOk := fun _ => false
  run := fun d _ => Except.ok d

/-- A concrete input. -/
def sampleInput : TransformInput where
  url := "https://example.com/a.png"
  data := [1, 2, 3]
  contentType := MimeType.PNG

/-- The same bytes under a different url. -/
def sampleInputB : TransformInput where
  url := "https://example.com/b.png"
  data := [1, 2, 3]
  contentType := MimeType.PNG

/-- Options requesting webp output. -/
def webpOptions : TransformOptions :=
  { baseOptions with contentType := MimeType.WEBP }

/-- Options requesting svg output — a type outside `supportedOutputs`. -/
def svgOptions : TransformOptions :=
  { baseOptions with contentType := MimeType.SVG }

/-- Options requesting a 90-degree rotation. -/
def rotateOptions : TransformOptions :=
  { baseOptions with rotate := some 90 }

/-- Options requesting a blur of radius 2. -/
def blurOptions : TransformOptions :=
  { baseOptions with blurRadius := some 2 }

/-- Options carrying a negative blur radius. -/
def negBlurOptions : TransformOptions :=
  { baseOptions with blurRadius := some (-3) }

/-- Options requesting a flip in both directions. -/
def flipBothOptions : TransformOptions :=
  { baseOptions with flip := some FlipDirection.both }

-- Stage classification of each pipeline segment.

lemma mem_alphaOps {a : Op} (h : a ∈ alphaOps) : stage a = 0 := by
  simp [alphaOps] at h
  subst h
  rfl

lemma mem_cropOps {o : TransformOptions} {a : Op} (h : a ∈ cropOps o) :
    stage a = 1 := by
  cases hc : o.crop <;> simp [cropOps, hc] at h
  subst h
  rfl

lemma mem_resizeOps {o : TransformOptions} {a : Op} (h : a ∈ resizeOps o) :
    stage a = 2 := by
  unfold resizeOps at h
  split at h <;> simp at h
  subst h
  rfl

lemma mem_flipOps {o : TransformOptions} {a : Op} (h : a ∈ flipOps o) :
    stage a = 3 ∨ stage a = 4 := by
  cases hf : o.flip with
  | none => simp [flipOps, hf] at h
  | some d =>
      simp only [flipOps, hf] at h
      rcases List.mem_append.mp h with h1 | h1
      · left
        split at h1 <;> simp at h1
        subst h1
        rfl
      · right
        split at h1 <;> simp at h1
        subst h1
        rfl

lemma mem_rotateOps {o : TransformOptions} {a : Op} (h : a ∈ rotateOps o) :
    stage a = 5 := by
  cases hr : o.rotate with
  | none => simp [rotateOps, hr] at h
  | some r =>
      simp only [rotateOps, hr] at h
      split at h <;> simp at h
      subst h
      rfl

lemma mem_blurOps {o : TransformOptions} {a : Op} (h : a ∈ blurOps o) :
    stage a = 6 := by
  cases hb : o.blurRadius with
  | none => simp [blurOps, hb] at h
  | some b =>
      simp only [blurOps, hb] at h
      split at h <;> simp at h
      subst h
      rfl

lemma mem_encodeOps {o : TransformOptions} {a : Op} (h : a ∈ encodeOps o) :
    stage a = 7 := by
  simp [encodeOps] at h
  subst h
  rfl

lemma notmem_alphaOps {x : Op} (hx : stage x ≠ 0) : x ∉ alphaOps :=
  fun hm => hx (mem_alphaOps hm)

lemma notmem_cropOps {o : TransformOptions} {x : Op} (hx : stage x ≠ 1) :
    x ∉ cropOps o :=
  fun hm => hx (mem_cropOps hm)

lemma notmem_resizeOps {o : TransformOptions} {x : Op} (hx : stage x ≠ 2) :
    x ∉ resizeOps o :=
  fun hm => hx (mem_resizeOps hm)

lemma notmem_flipOps {o : TransformOptions} {x : Op} (hx3 : stage x ≠ 3)
    (hx4 : stage x ≠ 4) : x ∉ flipOps o :=
  fun hm => (mem_flipOps hm).elim hx3 hx4

lemma notmem_rotateOps {o : TransformOptions} {x : Op} (hx : stage x ≠ 5) :
    x ∉ rotateOps o :=
  fun hm => hx (mem_rotateOps hm)

lemma notmem_blurOps {o : TransformOptions} {x : Op} (hx : stage x ≠ 6) :
    x ∉ blurOps o :=
  fun hm => hx (mem_blurOps hm)

lemma notmem_encodeOps {o : TransformOptions} {x : Op} (hx : stage x ≠ 7) :
    x ∉ encodeOps o :=
  fun hm => hx (mem_encodeOps hm)

-- Membership in the full trace decomposes into the seven segments.

lemma mem_trace_iff {o : TransformOptions} {x : Op} :
    x ∈ transformTrace o ↔
      x ∈ alphaOps ∨ x ∈ cropOps o ∨ x ∈ resizeOps o ∨ x ∈ flipOps o ∨
      x ∈ rotateOps o ∨ x ∈ blurOps o ∨ x ∈ encodeOps o := by
  simp [transformTrace, List.mem_append, or_assoc]

lemma rotate_mem_trace {o : TransformOptions} {r : Int} {b : FixedBackground} :
    Op.rotate r b ∈ transformTrace o ↔ Op.rotate r b ∈ rotateOps o := by
  rw [mem_trace_iff]
  constructor
  · rintro (h | h | h | h | h | h | h)
    · exact absurd (mem_alphaOps h) (by simp [stage])
    · exact absurd (mem_cropOps h) (by simp [stage])
    · exact absurd (mem_resizeOps h) (by simp [stage])
    · rcases mem_flipOps h with h1 | h1 <;> simp [stage] at h1
    · exact h
    · exact absurd (mem_blurOps h) (by simp [stage])
    · exact absurd (mem_encodeOps h) (by simp [stage])
  · intro h
    exact Or.inr (Or.inr (Or.inr (Or.inr (Or.inl h))))

lemma blur_mem_trace {o : TransformOptions} {r : Int} :
    Op.blur r ∈ transformTrace o ↔ Op.blur r ∈ blurOps o := by
  rw [mem_trace_iff]
  constructor
  · rintro (h | h | h | h | h | h | h)
    · exact absurd (mem_alphaOps h) (by simp [stage])
    · exact absurd (mem_cropOps h) (by simp [stage])
    · exact absurd (mem_resizeOps h) (by simp [stage])
    · rcases mem_flipOps h with h1 | h1 <;> simp [stage] at h1
    · exact absurd (mem_rotateOps h) (by simp [stage])
    · exact h
    · exact absurd (mem_encodeOps h) (by simp [stage])
  · intro h
    exact Or.inr (Or.inr (Or.inr (Or.inr (Or.inr (Or.inl h)))))

lemma flop_mem_trace {o : TransformOptions} :
    Op.flop ∈ transformTrace o ↔ Op.flop ∈ flipOps o := by
  rw [mem_trace_iff]
  constructor
  · rintro (h | h | h | h | h | h | h)
    · exact absurd (mem_alphaOps h) (by simp [stage])
    · exact absurd (mem_cropOps h) (by simp [stage])
    · exact absurd (mem_resizeOps h) (by simp [stage])
    · exact h
    · exact absurd (mem_rotateOps h) (by simp [stage])
    · exact absurd (mem_blurOps h) (by simp [stage])
    · exact absurd (mem_encodeOps h) (by simp [stage])
  · intro h
    exact Or.inr (Or.inr (Or.inr (Or.inl h)))

lemma flipop_mem_trace {o : TransformOptions} :
    Op.flip ∈ transformTrace o ↔ Op.flip ∈ flipOps o := by
  rw [mem_trace_iff]
  constructor
  · rintro (h | h | h | h | h | h | h)
    · exact absurd (mem_alphaOps h) (by simp [stage])
    · exact absurd (mem_cropOps h) (by simp [stage])
    · exact absurd (mem_resizeOps h) (by simp [stage])
    · exact h
    · exact absurd (mem_rotateOps h) (by simp [stage])
    · exact absurd (mem_blurOps h) (by simp [stage])
    · exact absurd (mem_encodeOps h) (by simp [stage])
  · intro h
    exact Or.inr (Or.inr (Or.inr (Or.inl h)))

lemma extract_mem_trace {o : TransformOptions} {x y w h : Int} :
    Op.extract x y w h ∈ transformTrace o ↔
      Op.extract x y w h ∈ cropOps o := by
  rw [mem_trace_iff]
  constructor
  · rintro (h1 | h1 | h1 | h1 | h1 | h1 | h1)
    · exact absurd (mem_alphaOps h1) (by simp [stage])
    · exact h1
    · exact absurd (mem_resizeOps h1) (by simp [stage])
    · rcases mem_flipOps h1 with h2 | h2 <;> simp [stage] at h2
    · exact absurd (mem_rotateOps h1) (by simp [stage])
    · exact absurd (mem_blurOps h1) (by simp [stage])
    · exact absurd (mem_encodeOps h1) (by simp [stage])
  · intro h1
    exact Or.inr (Or.inl h1)

lemma resize_mem_trace {o : TransformOptions} {w h : Option Int}
    {f : ImageFit} {p : ImagePosition} {b : FixedBackground} :
    Op.resize w h f p b ∈ transformTrace o ↔
      Op.resize w h f p b ∈ resizeOps o := by
  rw [mem_trace_iff]
  constructor
  · rintro (h1 | h1 | h1 | h1 | h1 | h1 | h1)
    · exact absurd (mem_alphaOps h1) (by simp [stage])
    · exact absurd (mem_cropOps h1) (by simp [stage])
    · exact h1
    · rcases mem_flipOps h1 with h2 | h2 <;> simp [stage] at h2
    · exact absurd (mem_rotateOps h1) (by simp [stage])
    · exact absurd (mem_blurOps h1) (by simp [stage])
    · exact absurd (mem_encodeOps h1) (by simp [stage])
  · intro h1
    exact Or.inr (Or.inr (Or.inl h1))

-- Occurrence counts in the trace reduce to the owning segment.

lemma count_trace (o : TransformOptions) (x : Op) :
    (transformTrace o).count x =
      alphaOps.count x + (cropOps o).count x + (resizeOps o).count x +
      (flipOps o).count x + (rotateOps o).count x + (blurOps o).count x +
      (encodeOps o).count x := by
  simp only [transformTrace, List.count_append]

lemma count_rotate_trace (o : TransformOptions) (r : Int)
    (b : FixedBackground) :
    (transformTrace o).count (Op.rotate r b) =
      (rotateOps o).count (Op.rotate r b) := by
  rw [count_trace]
  rw [List.count_eq_zero.mpr (notmem_alphaOps (by simp [stage]))]
  rw [List.count_eq_zero.mpr (notmem_cropOps (by simp [stage]))]
  rw [List.count_eq_zero.mpr (notmem_resizeOps (by simp [stage]))]
  rw [List.count_eq_zero.mpr
    (notmem_flipOps (by simp [stage]) (by simp [stage]))]
  rw [List.count_eq_zero.mpr (notmem_blurOps (by simp [stage]))]
  rw [List.count_eq_zero.mpr (notmem_encodeOps (by simp [stage]))]
  omega

lemma count_blur_trace (o : TransformOptions) (r : Int) :
    (transformTrace o).count (Op.blur r) =
      (blurOps o).count (Op.blur r) := by
  rw [count_trace]
  rw [List.count_eq_zero.mpr (notmem_alphaOps (by simp [stage]))]
  rw [List.count_eq_zero.mpr (notmem_cropOps (by simp [stage]))]
  rw [List.count_eq_zero.mpr (notmem_resizeOps (by simp [stage]))]
  rw [List.count_eq_zero.mpr
    (notmem_flipOps (by simp [stage]) (by simp [stage]))]
  rw [List.count_eq_zero.mpr (notmem_rotateOps (by simp [stage]))]
  rw [List.count_eq_zero.mpr (notmem_encodeOps (by simp [stage]))]
  omega

lemma count_flop_trace (o : TransformOptions) :
    (transformTrace o).count Op.flop = (flipOps o).count Op.flop := by
  rw [count_trace]
  rw [List.count_eq_zero.mpr (notmem_alphaOps (by simp [stage]))]
  rw [List.count_eq_zero.mpr (notmem_cropOps (by simp [stage]))]
  rw [List.count_eq_zero.mpr (notmem_resizeOps (by simp [stage]))]
  rw [List.count_eq_zero.mpr (notmem_rotateOps (by simp [stage]))]
  rw [List.count_eq_zero.mpr (notmem_blurOps (by simp [stage]))]
  rw [List.count_eq_zero.mpr (notmem_encodeOps (by simp [stage]))]
  omega

lemma count_flipop_trace (o : TransformOptions) :
    (transformTrace o).count Op.flip = (flipOps o).count Op.flip := by
  rw [count_trace]
  rw [List.count_eq_zero.mpr (notmem_alphaOps (by simp [stage]))]
  rw [List.count_eq_zero.mpr (notmem_cropOps (by simp [stage]))]
  rw [List.count_eq_zero.mpr (notmem_resizeOps (by simp [stage]))]
  rw [List.count_eq_zero.mpr (notmem_rotateOps (by simp [stage]))]
  rw [List.count_eq_zero.mpr (notmem_blurOps (by simp [stage]))]
  rw [List.count_eq_zero.mpr (notmem_encodeOps (by simp [stage]))]
  omega

-- Each segment is internally stage-ordered.

lemma pairwise_alphaOps : alphaOps.Pairwise StageLT := by
  simp [alphaOps]

lemma pairwise_cropOps (o : TransformOptions) :
    (cropOps o).Pairwise StageLT := by
  cases hc : o.crop <;> simp [cropOps, hc]

lemma pairwise_resizeOps (o : TransformOptions) :
    (resizeOps o).Pairwise StageLT := by
  unfold resizeOps
  split <;> simp

lemma pairwise_flipOps (o : TransformOptions) :
    (flipOps o).Pairwise StageLT := by
  cases hf : o.flip with
  | none => simp [flipOps, hf]
  | some d => cases d <;> simp [flipOps, hf, StageLT, stage]

lemma pairwise_rotateOps (o : TransformOptions) :
    (rotateOps o).Pairwise StageLT := by
  cases hr : o.rotate with
  | none => simp [rotateOps, hr]
  | some r =>
      simp only [rotateOps, hr]
      split <;> simp

lemma pairwise_blurOps (o : TransformOptions) :
    (blurOps o).Pairwise StageLT := by
  cases hb : o.blurRadius with
  | none => simp [blurOps, hb]
  | some b =>
      simp only [blurOps, hb]
      split <;> simp

lemma pairwise_encodeOps (o : TransformOptions) :
    (encodeOps o).Pairwise StageLT := by
  simp [encodeOps]

-- The whole trace is strictly stage-ordered.

lemma pairwise_trace (o : TransformOptions) :
    (transformTrace o).Pairwise StageLT := by
  unfold transformTrace
  have m1 : ∀ a ∈ alphaOps ++ cropOps o, stage a ≤ 1 := by
    intro a ha
    rcases List.mem_append.mp ha with h | h
    · have := mem_alphaOps h; omega
    · have := mem_cropOps h; omega
  have p1 : (alphaOps ++ cropOps o).Pairwise StageLT :=
    List.pairwise_append.mpr ⟨pairwise_alphaOps, pairwise_cropOps o, by
      intro a ha b hb
      have h1 := mem_alphaOps ha
      have h2 := mem_cropOps hb
      unfold StageLT
      omega⟩
  have m2 : ∀ a ∈ alphaOps ++ cropOps o ++ resizeOps o, stage a ≤ 2 := by
    intro a ha
    rcases List.mem_append.mp ha with h | h
    · have := m1 a h; omega
    · have := mem_resizeOps h; omega
  have p2 : (alphaOps ++ cropOps o ++ resizeOps o).Pairwise StageLT :=
    List.pairwise_append.mpr ⟨p1, pairwise_resizeOps o, by
      intro a ha b hb
      have h1 := m1 a ha
      have h2 := mem_resizeOps hb
      unfold StageLT
      omega⟩
  have m3 : ∀ a ∈ alphaOps ++ cropOps o ++ resizeOps o ++ flipOps o,
      stage a ≤ 4 := by
    intro a ha
    rcases List.mem_append.mp ha with h | h
    · have := m2 a h; omega
    · rcases mem_flipOps h with h1 | h1 <;> omega
  have p3 : (alphaOps ++ cropOps o ++ resizeOps o ++ flipOps o).Pairwise
      StageLT :=
    List.pairwise_append.mpr ⟨p2, pairwise_flipOps o, by
      intro a ha b hb
      have h1 := m2 a ha
      rcases mem_flipOps hb with h2 | h2 <;> (unfold StageLT; omega)⟩
  have m4 : ∀ a ∈ alphaOps ++ cropOps o ++ resizeOps o ++ flipOps o ++
      rotateOps o, stage a ≤ 5 := by
    intro a ha
    rcases List.mem_append.mp ha with h | h
    · have := m3 a h; omega
    · have := mem_rotateOps h; omega
  have p4 : (alphaOps ++ cropOps o ++ resizeOps o ++ flipOps o ++
      rotateOps o).Pairwise StageLT :=
    List.pairwise_append.mpr ⟨p3, pairwise_rotateOps o, by
      intro a ha b hb
      have h1 := m3 a ha
      have h2 := mem_rotateOps hb
      unfold StageLT
      omega⟩
  have m5 : ∀ a ∈ alphaOps ++ cropOps o ++ resizeOps o ++ flipOps o ++
      rotateOps o ++ blurOps o, stage a ≤ 6 := by
    intro a ha
    rcases List.mem_append.mp ha with h | h
    · have := m4 a h; omega
    · have := mem_blurOps h; omega
  have p5 : (alphaOps ++ cropOps o ++ resizeOps o ++ flipOps o ++
      rotateOps o ++ blurOps o).Pairwise StageLT :=
    List.pairwise_append.mpr ⟨p4, pairwise_blurOps o, by
      intro a ha b hb
      have h1 := m4 a ha
      have h2 := mem_blurOps hb
      unfold StageLT
      omega⟩
  exact List.pairwise_append.mpr ⟨p5, pairwise_encodeOps o, by
    intro a ha b hb
    have h1 := m5 a ha
    have h2 := mem_encodeOps hb
    unfold StageLT
    omega⟩

-- Head, last and flip-segment placement in the trace.

lemma trace_head (o : TransformOptions) :
    (transformTrace o).head? = some (Op.ensureAlpha 1) := by
  simp [transformTrace, alphaOps]

lemma trace_getLast (o : TransformOptions) :
    (transformTrace o).getLast? = some (Op.encode (encodeConfig o)) := by
  unfold transformTrace encodeOps
  rw [List.getLast?_concat]

lemma flipOps_sublist_trace (o : TransformOptions) :
    List.Sublist (flipOps o) (transformTrace o) := by
  unfold transformTrace
  have h1 : List.Sublist (flipOps o)
      (alphaOps ++ cropOps o ++ resizeOps o ++ flipOps o) :=
    List.sublist_append_right _ _
  have h2 := List.sublist_append_left
    (alphaOps ++ cropOps o ++ resizeOps o ++ flipOps o) (rotateOps o)
  have h3 := List.sublist_append_left
    (alphaOps ++ cropOps o ++ resizeOps o ++ flipOps o ++ rotateOps o)
    (blurOps o)
  have h4 := List.sublist_append_left
    (alphaOps ++ cropOps o ++ resizeOps o ++ flipOps o ++ rotateOps o ++
      blurOps o) (encodeOps o)
  exact h1.trans (h2.trans (h3.trans h4))

-- The six force flags written out.

lemma forceFlags_encodeConfig (o : TransformOptions) :
    forceFlags (encodeConfig o) =
      [decide (o.contentType = MimeType.JPEG),
       decide (o.contentType = MimeType.PNG),
       decide (o.contentType = MimeType.GIF),
       decide (o.contentType = MimeType.WEBP),
       decide (o.contentType = MimeType.TIFF),
       decide (o.contentType = MimeType.AVIF)] := rfl

/-- C1 counterexample: with output contentType `image/svg+xml`, which is
outside `supportedOutputs`, `transform` does not fail with
`UnsupportedOutputError`; it succeeds and returns the engine's bytes. -/
theorem no_output_guard_cex :
    svgOptions.contentType ∉ supportedOutputs
    ∧ transform okEngine sampleInput svgOptions = Except.ok [1, 2, 3] := by
  constructor
  · decide
  · rfl

/-- C1 (amended): `transform` contains no unsupported-output guard.  For a
resolved contentType outside `supportedOutputs` it never fails with
`UnsupportedOutputError`; it proceeds, configuring all six encoders with
`force := false`. -/
theorem no_unsupported_output_error (E : Engine) (input : TransformInput)
    (o : TransformOptions) (h : o.contentType ∉ supportedOutputs) :
    transform E input o ≠ Except.error TransformError.UnsupportedOutputError
    ∧ forceFlags (encodeConfig o) =
        [false, false, false, false, false, false] := by
  constructor
  · intro hcontra
    unfold transform at hcontra
    cases hd : E.decodesOk input.data
    · simp [hd] at hcontra
    · cases hr : E.run input.data (transformTrace o) with
      | ok v => simp [hd, hr] at hcontra
      | error f => cases f <;> simp [hd, hr] at hcontra
  · rw [forceFlags_encodeConfig]
    cases hct : o.contentType
    case SVG => decide
    case BMP => decide
    all_goals (rw [hct] at h; exact absurd (by decide) h)

/-- C1 witness: the amended statement at contentType `image/svg+xml`. -/
theorem no_unsupported_output_error_witness :
    svgOptions.contentType ∉ supportedOutputs
    ∧ forceFlags (encodeConfig svgOptions) =
        [false, false, false, false, false, false] :=
  ⟨by decide,
   (no_unsupported_output_error okEngine sampleInput svgOptions
     (by decide)).2⟩

/-- C2: the pipeline applies operations in a single fixed total order —
alpha normalization first and unconditionally, then crop only when `crop`
is present, then resize only when `width` or `height` is present, then
flip, then rotate, then blur, then encoding last; the trace is strictly
ordered by pipeline stage, so no other order ever occurs. -/
theorem transform_fixed_order (o : TransformOptions) :
    (transformTrace o).head? = some (Op.ensureAlpha 1)
    ∧ (transformTrace o).getLast? = some (Op.encode (encodeConfig o))
    ∧ (transformTrace o).Pairwise StageLT
    ∧ ((∃ x y w h, Op.extract x y w h ∈ transformTrace o) ↔ o.crop ≠ none)
    ∧ ((∃ w h f p b, Op.resize w h f p b ∈ transformTrace o) ↔
        (o.width ≠ none ∨ o.height ≠ none)) := by
  refine ⟨trace_head o, trace_getLast o, pairwise_trace o, ?_, ?_⟩
  · constructor
    · rintro ⟨x, y, w, h, hm⟩
      rw [extract_mem_trace] at hm
      cases hc : o.crop with
      | none => simp [cropOps, hc] at hm
      | some c => simp [hc]
    · intro hc
      cases hcc : o.crop with
      | none => exact absurd hcc hc
      | some c =>
          refine ⟨c.x, c.y, c.width, c.height, ?_⟩
          rw [extract_mem_trace]
          simp [cropOps, hcc]
  · constructor
    · rintro ⟨w, h, f, p, b, hm⟩
      rw [resize_mem_trace] at hm
      rcases Decidable.em (o.width ≠ none ∨ o.height ≠ none) with hc | hc
      · exact hc
      · rw [resizeOps, if_neg hc] at hm
        simp at hm
    · intro hcond
      refine ⟨o.width, o.height, o.fit, o.position,
        fixedBackground o.background, ?_⟩
      rw [resize_mem_trace]
      unfold resizeOps
      rw [if_pos hcond]
      simp

/-- C3: for a contentType inside `supportedOutputs`, the single encode
dispatch configures all six encoders, setting `force` to true for exactly
the encoder matching contentType and to false for the other five. -/
theorem encode_force_exclusive (o : TransformOptions)
    (h : o.contentType ∈ supportedOutputs) :
    (forceFlags (encodeConfig o)).count true = 1
    ∧ ((encodeConfig o).jpeg.force = true ↔ o.contentType = MimeType.JPEG)
    ∧ ((encodeConfig o).png.force = true ↔ o.contentType = MimeType.PNG)
    ∧ ((encodeConfig o).gif.force = true ↔ o.contentType = MimeType.GIF)
    ∧ ((encodeConfig o).webp.force = true ↔ o.contentType = MimeType.WEBP)
    ∧ ((encodeConfig o).tiff.force = true ↔ o.contentType = MimeType.TIFF)
    ∧ ((encodeConfig o).avif.force = true ↔
        o.contentType = MimeType.AVIF) := by
  have hj : (encodeConfig o).jpeg.force =
      decide (o.contentType = MimeType.JPEG) := rfl
  have hp : (encodeConfig o).png.force =
      decide (o.contentType = MimeType.PNG) := rfl
  have hg : (encodeConfig o).gif.force =
      decide (o.contentType = MimeType.GIF) := rfl
  have hw : (encodeConfig o).webp.force =
      decide (o.contentType = MimeType.WEBP) := rfl
  have ht : (encodeConfig o).tiff.force =
      decide (o.contentType = MimeType.TIFF) := rfl
  have ha : (encodeConfig o).avif.force =
      decide (o.contentType = MimeType.AVIF) := rfl
  rw [forceFlags_encodeConfig, hj, hp, hg, hw, ht, ha]
  cases hct : o.contentType
  case SVG => rw [hct] at h; exact absurd h (by decide)
  case BMP => rw [hct] at h; exact absurd h (by decide)
  all_goals decide

/-- C3 witness: the dispatch at contentType `image/webp`. -/
theorem encode_force_exclusive_witness :
    webpOptions.contentType ∈ supportedOutputs
    ∧ (forceFlags (encodeConfig webpOptions)).count true = 1 :=
  ⟨by decide, (encode_force_exclusive webpOptions (by decide)).1⟩

/-- C4: whenever the engine cannot decode the input bytes as one of its
supported input encodings, `transform` fails with the decode error, for
every resolved option set. -/
theorem decode_failure (E : Engine) (input : TransformInput)
    (o : TransformOptions) (h : E.decodesOk input.data = false) :
    transform E input o = Except.error TransformError.DecodeError := by
  unfold transform
  rw [h]
  simp

/-- C4 witness: an engine rejecting the bytes yields the decode error. -/
theorem decode_failure_witness :
    failEngine.decodesOk sampleInput.data = false
    ∧ transform failEngine sampleInput baseOptions =
        Except.error TransformError.DecodeError :=
  ⟨rfl, decode_failure failEngine sampleInput baseOptions rfl⟩

/-- C5: with `rotate` absent or exactly 0 the engine rotate operation is
never issued; with `rotate` present and non-zero it is issued exactly once,
with that angle and the resolved background color as fill. -/
theorem rotate_guard (o : TransformOptions) :
    ((o.rotate = none ∨ o.rotate = some 0) →
      ∀ r b, Op.rotate r b ∉ transformTrace o)
    ∧ (∀ r, o.rotate = some r → r ≠ 0 →
        (transformTrace o).count
            (Op.rotate r (fixedBackground o.background)) = 1
        ∧ ∀ r' b', Op.rotate r' b' ∈ transformTrace o →
            r' = r ∧ b' = fixedBackground o.background) := by
  constructor
  · rintro (hr | hr) r b hmem <;> rw [rotate_mem_trace] at hmem <;>
      simp [rotateOps, hr] at hmem
  · intro r hr hne
    have hrops : rotateOps o =
        [Op.rotate r (fixedBackground o.background)] := by
      simp [rotateOps, hr, hne]
    constructor
    · rw [count_rotate_trace, hrops]
      simp
    · intro r' b' hmem
      rw [rotate_mem_trace, hrops] at hmem
      simp at hmem
      exact hmem

/-- C5 witness: a 90-degree rotation is issued exactly once. -/
theorem rotate_guard_witness :
    (transformTrace rotateOptions).count
      (Op.rotate 90 (fixedBackground rotateOptions.background)) = 1 :=
  ((rotate_guard rotateOptions).2 90 rfl (by decide)).1

/-- C6: with `blurRadius` absent or 0 the blur operation is never issued;
with `blurRadius` present and strictly positive it is issued exactly once,
with that radius. -/
theorem blur_guard (o : TransformOptions) :
    ((o.blurRadius = none ∨ o.blurRadius = some 0) →
      ∀ r, Op.blur r ∉ transformTrace o)
    ∧ (∀ b, o.blurRadius = some b → 0 < b →
        (transformTrace o).count (Op.blur b) = 1
        ∧ ∀ r, Op.blur r ∈ transformTrace o → r = b) := by
  constructor
  · rintro (hb | hb) r hmem <;> rw [blur_mem_trace] at hmem <;>
      simp [blurOps, hb] at hmem
  · intro b hb hpos
    have hb0 : b ≠ 0 := by omega
    have hbops : blurOps o = [Op.blur b] := by
      simp [blurOps, hb, hb0, hpos]
    constructor
    · rw [count_blur_trace, hbops]
      simp
    · intro r hmem
      rw [blur_mem_trace, hbops] at hmem
      simpa using hmem

/-- C6 witness: a blur of radius 2 is issued exactly once. -/
theorem blur_guard_witness :
    (transformTrace blurOptions).count (Op.blur 2) = 1 :=
  ((blur_guard blurOptions).2 2 rfl (by decide)).1

/-- C7: `flip` absent issues no mirror; `horizontal` issues only the
left-right mirror (`flop`); `vertical` issues only the top-bottom mirror
(`flip`); `both` issues both, as two independent steps, with the
left-right mirror first. -/
theorem flip_dispatch (o : TransformOptions) :
    (o.flip = none →
      Op.flop ∉ transformTrace o ∧ Op.flip ∉ transformTrace o)
    ∧ (o.flip = some FlipDirection.horizontal →
      (transformTrace o).count Op.flop = 1 ∧ Op.flip ∉ transformTrace o)
    ∧ (o.flip = some FlipDirection.vertical →
      Op.flop ∉ transformTrace o ∧ (transformTrace o).count Op.flip = 1)
    ∧ (o.flip = some FlipDirection.both →
      (transformTrace o).count Op.flop = 1
      ∧ (transformTrace o).count Op.flip = 1
      ∧ List.Sublist [Op.flop, Op.flip] (transformTrace o)) := by
  refine ⟨?_, ?_, ?_, ?_⟩
  · intro hf
    constructor
    · intro hmem
      rw [flop_mem_trace] at hmem
      simp [flipOps, hf] at hmem
    · intro hmem
      rw [flipop_mem_trace] at hmem
      simp [flipOps, hf] at hmem
  · intro hf
    have he : flipOps o = [Op.flop] := by simp [flipOps, hf]
    constructor
    · rw [count_flop_trace, he]
      simp
    · intro hmem
      rw [flipop_mem_trace, he] at hmem
      simp at hmem
  · intro hf
    have he : flipOps o = [Op.flip] := by simp [flipOps, hf]
    constructor
    · intro hmem
      rw [flop_mem_trace, he] at hmem
      simp at hmem
    · rw [count_flipop_trace, he]
      simp
  · intro hf
    have he : flipOps o = [Op.flop, Op.flip] := by simp [flipOps, hf]
    refine ⟨?_, ?_, ?_⟩
    · rw [count_flop_trace, he]
      decide
    · rw [count_flipop_trace, he]
      decide
    · have hs := flipOps_sublist_trace o
      rw [he] at hs
      exact hs

/-- C7 witness: `flip: both` issues the left-right mirror once. -/
theorem flip_dispatch_witness :
    (transformTrace flipBothOptions).count Op.flop = 1 :=
  ((flip_dispatch flipBothOptions).2.2.2 rfl).1

/-- C8: two-run noninterference over the url — two calls agreeing on the
input bytes and resolved options produce identical results whatever their
urls; the url is never read during processing. -/
theorem url_noninterference (E : Engine) (i j : TransformInput)
    (o : TransformOptions) (h : i.data = j.data) :
    transform E i o = transform E j o := by
  unfold transform
  rw [h]

/-- C8 witness: identical bytes under two different urls transform
identically. -/
theorem url_noninterference_witness :
    transform okEngine sampleInput baseOptions =
      transform okEngine sampleInputB baseOptions :=
  url_noninterference okEngine sampleInput sampleInputB baseOptions rfl

/-- C9: the sharpTransformer descriptor's fallbackOutput (image/png) is a
member of its supportedOutputs set. -/
theorem fallback_in_supported :
    sharpTransformer.fallbackOutput ∈ sharpTransformer.supportedOutputs := by
  decide

/-- C10: a present but negative blurRadius skips the blur operation
entirely — the guard demands a strictly positive radius — and the pipeline
still completes, ending in the encode dispatch. -/
theorem blur_negative_skipped (o : TransformOptions) (b : Int)
    (hb : o.blurRadius = some b) (hneg : b < 0) :
    (∀ r, Op.blur r ∉ transformTrace o)
    ∧ (transformTrace o).getLast? = some (Op.encode (encodeConfig o)) := by
  have hnp : ¬(b ≠ 0 ∧ 0 < b) := by omega
  have hbops : blurOps o = [] := by
    simp only [blurOps, hb]
    rw [if_neg hnp]
  refine ⟨?_, trace_getLast o⟩
  intro r hmem
  rw [blur_mem_trace, hbops] at hmem
  simp at hmem

/-- C10 witness: blurRadius -3 issues no blur operation. -/
theorem blur_negative_skipped_witness :
    Op.blur (-3) ∉ transformTrace negBlurOptions :=
  (blur_negative_skipped negBlurOptions (-3) rfl (by decide)).1 (-3)

end SharpTransformer
